import Mathlib

/-!
Shallow embedding of `PersistentServiceClient` from
`include/ros_boosted_utilities/persistent_service_client.hpp`.

The wrapper class holds exactly two fields: a `ros::ServiceClient client_`
and a `ros::NodeHandle nh_`.  The underlying ROS middleware
(`ros::ServiceClient` / `ros::NodeHandle`) is an external collaborator, not
code of this repository; it is modelled here as an abstract environment
`RosEnv` whose fields follow the collaborator contract stated in the spec
(non-blocking validity query, endpoint-name accessor, blocking
wait-for-availability with optional timeout, blocking call exchange,
idempotent shutdown).  Connection creation
(`nh_.serviceClient<T>(name, true)`) allocates a fresh connection handle;
allocation is made explicit by threading a fresh-identifier counter.

`call` may block forever (the indefinite `waitForExistence()` on the rebuilt
connection); a blocking execution is modelled by an `Option` result that is
`none`, paired with the trace of observable events (diagnostics, connection
creation, waits, and the dispatch of the underlying exchange) that happened
before the block.
-/

/-- A `ros::ServiceClient` handle: its identity (allocation number) and the
arguments it was opened with (`nh.serviceClient<T>(opened_name, persistent)`). -/
structure Conn where
  id : Nat
  opened_name : String
  persistent : Bool
deriving DecidableEq, Repr

/-- A `ros::NodeHandle`, opaque at this level: only its identity matters. -/
structure NodeHandle where
  id : Nat
deriving DecidableEq, Repr

/-- A `ros::Duration`, reduced to its signed magnitude; negative means
"wait indefinitely" for `waitForExistence`. -/
structure Duration where
  t : Int
deriving DecidableEq, Repr

/-- The ROS middleware collaborator, modelled from its contract in the spec:
`isValid` is the non-blocking validity query of a connection, `getService`
the endpoint-name accessor, `availAt c` the single time at which the
endpoint of connection `c` becomes available (`none` = never), and
`callSrv c s` the blocking request/response exchange on `c`: a success flag
together with the request/response object populated in place. -/
structure RosEnv (Srv : Type) where
  isValid : Conn → Bool
  getService : Conn → String
  availAt : Conn → Option Int
  callSrv : Conn → Srv → Bool × Srv

/-- `nh.serviceClient<T>(name, persistent)`: opens a brand-new connection
handle immediately, without blocking on availability.  Freshness of the
handle is modelled by the threaded counter. -/
def NodeHandle.serviceClient (nh : NodeHandle) (name : String)
    (persistent : Bool) (fresh : Nat) : Conn × Nat :=
  (⟨fresh, name, persistent⟩, fresh + 1)

/-- Semantics of `ros::ServiceClient::waitForExistence(timeout)` per the
collaborator contract: a negative timeout blocks until the endpoint is
available (`none` result = blocks forever because it never is); a
non-negative timeout always returns, `true` exactly when the endpoint
became available within the bound. -/
def waitForExistenceSem {Srv : Type} (env : RosEnv Srv) (c : Conn)
    (timeout : Int) : Option Bool :=
  if timeout < 0 then
    match env.availAt c with
    | some _ => some true
    | none => none
  else
    match env.availAt c with
    | some a => some (decide (a ≤ timeout))
    | none => some false

/-- Observable events of one `call` invocation, in program order:
reading the endpoint name off the held connection, the two
`ROS_WARN_STREAM` diagnostics (each carrying the endpoint name), creating a
replacement connection via the node handle, blocking on
`waitForExistence`, and dispatching the underlying exchange. -/
inductive Event where
  | readName (c : Conn) (name : String)
  | warnLost (name : String)
  | newClient (nh : NodeHandle) (name : String) (persistent : Bool) (c : Conn)
  | waitForService (c : Conn) (timeout : Int)
  | warnRestored (name : String)
  | dispatch (c : Conn)
deriving DecidableEq, Repr

/-- Whether an event is the dispatch of the underlying call exchange. -/
def Event.isDispatch : Event → Bool
  | Event.dispatch _ => true
  | _ => false

/-- The exact text of the first `ROS_WARN_STREAM` diagnostic in `call`. -/
def lostMessage (service_name : String) : String :=
  "Lost connection to service :" ++ service_name ++
    ". Trying to reconnect and waiting until available."

/-- The exact text of the second `ROS_WARN_STREAM` diagnostic in `call`. -/
def restoredMessage (service_name : String) : String :=
  "Restored connection to " ++ service_name

/-- The wrapper state: exactly the two data members of the C++ class,
the held `ros::ServiceClient client_` and the `ros::NodeHandle nh_`.
No endpoint name is stored by the wrapper itself. -/
structure PersistentServiceClient where
  client_ : Conn
  nh_ : NodeHandle
deriving DecidableEq, Repr

/-- The parameterized constructor
`PersistentServiceClient(ros::NodeHandle nh, const std::string& service_name)`:
stores `nh` and immediately runs
`client_ = nh_.serviceClient<TServiceType>(service_name, true)`. -/
def PersistentServiceClient.construct (nh : NodeHandle)
    (service_name : String) (fresh : Nat) : PersistentServiceClient × Nat :=
  let p := nh.serviceClient service_name true fresh
  (⟨p.1, nh⟩, p.2)

/-- `bool call(TServiceType& service)`: if `client_.isValid()` is false,
read `client_.getService()`, warn about the loss, replace `client_` with
`nh_.serviceClient<TServiceType>(service_name, true)`, block on
`client_.waitForExistence()` (default `ros::Duration(-1)`), warn about the
restoration; in all cases finish with `return client_.call(service)`.
Returns the trace of events together with `none` when the invocation
blocks forever inside the wait, or `some` of the boolean result, the
populated service object, the updated wrapper state and the fresh counter. -/
def PersistentServiceClient.call {Srv : Type} (env : RosEnv Srv)
    (psc : PersistentServiceClient) (service : Srv) (fresh : Nat) :
    List Event × Option (Bool × Srv × PersistentServiceClient × Nat) :=
  if env.isValid psc.client_ then
    let r := env.callSrv psc.client_ service
    ([Event.dispatch psc.client_], some (r.1, r.2, psc, fresh))
  else
    let service_name := env.getService psc.client_
    let p := psc.nh_.serviceClient service_name true fresh
    let psc' : PersistentServiceClient := ⟨p.1, psc.nh_⟩
    let pre : List Event :=
      [Event.readName psc.client_ service_name,
       Event.warnLost service_name,
       Event.newClient psc.nh_ service_name true p.1,
       Event.waitForService p.1 (-1)]
    match waitForExistenceSem env p.1 (-1) with
    | none => (pre, none)
    | some _ =>
      let r := env.callSrv p.1 service
      (pre ++ [Event.warnRestored service_name, Event.dispatch p.1],
       some (r.1, r.2, psc', p.2))

/-- `bool waitForExistence(ros::Duration timeout = ros::Duration(-1))`:
pure delegation to `client_.waitForExistence(timeout)`; the wrapper state
is returned to make explicit that the held connection is not touched. -/
def PersistentServiceClient.waitForExistence {Srv : Type} (env : RosEnv Srv)
    (psc : PersistentServiceClient) (timeout : Duration) :
    Option Bool × PersistentServiceClient :=
  (waitForExistenceSem env psc.client_ timeout.t, psc)

/-- `bool isValid() const`: delegation to `client_.isValid()`. -/
def PersistentServiceClient.isValid {Srv : Type} (env : RosEnv Srv)
    (psc : PersistentServiceClient) : Bool :=
  env.isValid psc.client_

/-- `string getService()`: delegation to `client_.getService()`. -/
def PersistentServiceClient.getService {Srv : Type} (env : RosEnv Srv)
    (psc : PersistentServiceClient) : String :=
  env.getService psc.client_

/-- Transport-side resource state: the set of connection handles whose
resources have been released by `ros::ServiceClient::shutdown` (modelled
from the collaborator contract: releases resources, idempotent). -/
structure World where
  released : List Nat
deriving DecidableEq, Repr

/-- `ros::ServiceClient::shutdown()` on the transport side: marks the
connection's resources as released; releasing twice is a no-op. -/
def Conn.shutdownSem (c : Conn) (w : World) : World :=
  ⟨w.released.insert c.id⟩

/-- `void shutdown()`: delegation to `client_.shutdown()`.  The wrapper's
own fields (`client_` handle and `nh_`) are untouched; only the transport
state changes. -/
def PersistentServiceClient.shutdown (psc : PersistentServiceClient)
    (w : World) : PersistentServiceClient × World :=
  (psc, psc.client_.shutdownSem w)

/-- Sequential `call` invocations with the given request objects,
propagating the wrapper state and fresh counter; `none` as soon as one
invocation blocks forever. -/
def callList {Srv : Type} (env : RosEnv Srv) :
    PersistentServiceClient → Nat → List Srv →
    Option (PersistentServiceClient × Nat)
  | psc, fresh, [] => some (psc, fresh)
  | psc, fresh, s :: rest =>
    match (PersistentServiceClient.call env psc s fresh).2 with
    | none => none
    | some (_, _, psc', fresh') => callList env psc' fresh' rest

/-- Concrete middleware for witnesses: every connection valid, endpoint
immediately available, every exchange succeeds and bumps the payload. -/
def envAllValid : RosEnv Nat :=
  ⟨fun _ => true, fun c => c.opened_name, fun _ => some 0, fun _ s => (true, s + 1)⟩

/-- Concrete middleware for witnesses: the initial connection (id 0) is
invalid, every freshly rebuilt one (positive id) is valid; the endpoint is
always available; the name accessor is faithful. -/
def envReconnect : RosEnv Nat :=
  ⟨fun c => decide (0 < c.id), fun c => c.opened_name, fun _ => some 0,
   fun _ s => (true, s + 1)⟩

/-- Concrete middleware for witnesses, coherent in the sense that an
available endpoint implies a valid connection: connection id 0 is invalid
and its endpoint never available, rebuilt connections are valid and
immediately available. -/
def envCoherent : RosEnv Nat :=
  ⟨fun c => decide (0 < c.id), fun c => c.opened_name,
   fun c => if 0 < c.id then some 0 else none, fun _ s => (true, s)⟩

/-- Concrete middleware for witnesses: no connection is ever valid, the
endpoint never becomes available, and the name accessor returns the empty
string no matter what name the connection was opened against. -/
def envNever : RosEnv Nat :=
  ⟨fun _ => false, fun _ => "", fun _ => none, fun _ s => (true, s)⟩

/-- Concrete wrapper state for witnesses: connection id 0 opened
persistently against service "E", node handle id 7. -/
def psc0 : PersistentServiceClient :=
  ⟨⟨0, "E", true⟩, ⟨7⟩⟩

/-- C6: when the held connection reports valid, `call` delegates the
exchange directly: the trace is the single dispatch on the held connection
(no diagnostics, no wait, no replacement), the wrapper state and fresh
counter are unchanged, and the result is exactly the flag and in-place
populated object of the underlying exchange. -/
theorem call_valid_path {Srv : Type} (env : RosEnv Srv)
    (psc : PersistentServiceClient) (service : Srv) (fresh : Nat)
    (hvalid : env.isValid psc.client_ = true) :
    PersistentServiceClient.call env psc service fresh =
      ([Event.dispatch psc.client_],
       some ((env.callSrv psc.client_ service).1,
             (env.callSrv psc.client_ service).2, psc, fresh)) := by
  simp [PersistentServiceClient.call, hvalid]

/-- C6 witness: `envAllValid` with `psc0` takes the direct path. -/
theorem call_valid_path_witness :
    PersistentServiceClient.call envAllValid psc0 5 1 =
      ([Event.dispatch psc0.client_],
       some ((envAllValid.callSrv psc0.client_ 5).1,
             (envAllValid.callSrv psc0.client_ 5).2, psc0, 1)) :=
  call_valid_path envAllValid psc0 5 1 rfl

/-- C1: when the held connection reports invalid and the endpoint of the
rebuilt connection eventually becomes available, `call` performs exactly,
in order: read the endpoint name off the held connection, emit the
loss-of-connection diagnostic with that name, replace the held connection
with a brand-new persistent connection to that name obtained from the node
handle (distinct from the discarded one), block on the indefinite
(timeout −1) wait-for-availability against the new connection, emit the
restoration diagnostic, and only then dispatch the exchange on the new
connection, whose outcome it returns. -/
theorem call_reconnect_path {Srv : Type} (env : RosEnv Srv)
    (psc : PersistentServiceClient) (service : Srv) (fresh : Nat) (a : Int)
    (hinv : env.isValid psc.client_ = false)
    (havail : env.availAt (Conn.mk fresh (env.getService psc.client_) true) = some a)
    (hfresh : psc.client_.id < fresh) :
    PersistentServiceClient.call env psc service fresh =
      ([Event.readName psc.client_ (env.getService psc.client_),
        Event.warnLost (env.getService psc.client_),
        Event.newClient psc.nh_ (env.getService psc.client_) true
          (Conn.mk fresh (env.getService psc.client_) true),
        Event.waitForService (Conn.mk fresh (env.getService psc.client_) true) (-1),
        Event.warnRestored (env.getService psc.client_),
        Event.dispatch (Conn.mk fresh (env.getService psc.client_) true)],
       some ((env.callSrv (Conn.mk fresh (env.getService psc.client_) true) service).1,
             (env.callSrv (Conn.mk fresh (env.getService psc.client_) true) service).2,
             ⟨Conn.mk fresh (env.getService psc.client_) true, psc.nh_⟩, fresh + 1))
      ∧ Conn.mk fresh (env.getService psc.client_) true ≠ psc.client_ := by
  constructor
  · simp [PersistentServiceClient.call, hinv, NodeHandle.serviceClient,
      waitForExistenceSem, havail]
  · intro h
    have hid : fresh = psc.client_.id := congrArg Conn.id h
    omega

/-- C1 witness: `envReconnect` with `psc0` (invalid connection id 0,
endpoint available) takes the full reconnect path. -/
theorem call_reconnect_path_witness :
    (PersistentServiceClient.call envReconnect psc0 5 1 =
      ([Event.readName psc0.client_ (envReconnect.getService psc0.client_),
        Event.warnLost (envReconnect.getService psc0.client_),
        Event.newClient psc0.nh_ (envReconnect.getService psc0.client_) true
          (Conn.mk 1 (envReconnect.getService psc0.client_) true),
        Event.waitForService (Conn.mk 1 (envReconnect.getService psc0.client_) true) (-1),
        Event.warnRestored (envReconnect.getService psc0.client_),
        Event.dispatch (Conn.mk 1 (envReconnect.getService psc0.client_) true)],
       some ((envReconnect.callSrv (Conn.mk 1 (envReconnect.getService psc0.client_) true) 5).1,
             (envReconnect.callSrv (Conn.mk 1 (envReconnect.getService psc0.client_) true) 5).2,
             ⟨Conn.mk 1 (envReconnect.getService psc0.client_) true, psc0.nh_⟩, 1 + 1))
      ∧ Conn.mk 1 (envReconnect.getService psc0.client_) true ≠ psc0.client_) :=
  call_reconnect_path envReconnect psc0 5 1 0 rfl rfl (by decide)

/-- C4: when the held connection reports invalid and the endpoint of the
rebuilt connection never becomes available, `call` blocks forever: no
value (success or error) is ever produced, and the trace stops at the
indefinite (timeout −1) wait — no restoration diagnostic and no dispatch. -/
theorem call_blocks_forever {Srv : Type} (env : RosEnv Srv)
    (psc : PersistentServiceClient) (service : Srv) (fresh : Nat)
    (hinv : env.isValid psc.client_ = false)
    (hnever : env.availAt (Conn.mk fresh (env.getService psc.client_) true) = none) :
    PersistentServiceClient.call env psc service fresh =
      ([Event.readName psc.client_ (env.getService psc.client_),
        Event.warnLost (env.getService psc.client_),
        Event.newClient psc.nh_ (env.getService psc.client_) true
          (Conn.mk fresh (env.getService psc.client_) true),
        Event.waitForService (Conn.mk fresh (env.getService psc.client_) true) (-1)],
       none) := by
  simp [PersistentServiceClient.call, hinv, NodeHandle.serviceClient,
    waitForExistenceSem, hnever]

/-- C4 witness: `envNever` with `psc0` blocks forever. -/
theorem call_blocks_forever_witness :
    PersistentServiceClient.call envNever psc0 5 1 =
      ([Event.readName psc0.client_ (envNever.getService psc0.client_),
        Event.warnLost (envNever.getService psc0.client_),
        Event.newClient psc0.nh_ (envNever.getService psc0.client_) true
          (Conn.mk 1 (envNever.getService psc0.client_) true),
        Event.waitForService (Conn.mk 1 (envNever.getService psc0.client_) true) (-1)],
       none) :=
  call_blocks_forever envNever psc0 5 1 rfl rfl

/-- C9: the parameterized constructor eagerly opens the connection by
requesting it from the node handle, binding exactly the given name with
the persistent flag set; construction is total (no error even when the
endpoint is unreachable), and the resulting connection may still report
invalid (witnessed by a middleware in which it does). -/
theorem construct_eager (nh : NodeHandle) (service_name : String) (fresh : Nat) :
    (PersistentServiceClient.construct nh service_name fresh).1.client_
        = (nh.serviceClient service_name true fresh).1
    ∧ (PersistentServiceClient.construct nh service_name fresh).1.nh_ = nh
    ∧ (PersistentServiceClient.construct nh service_name fresh).1.client_.opened_name
        = service_name
    ∧ (PersistentServiceClient.construct nh service_name fresh).1.client_.persistent
        = true
    ∧ ∃ env : RosEnv Nat,
        PersistentServiceClient.isValid env
          (PersistentServiceClient.construct nh service_name fresh).1 = false :=
  ⟨rfl, rfl, rfl, rfl, ⟨envNever, rfl⟩⟩

/-- C8: `shutdown` is idempotent — a second `shutdown` returns the exact
same wrapper state and transport state as the first, never fails (it is a
total function), and the wrapper state (including the node handle `nh_`,
the execution-context handle) is not affected at all. -/
theorem shutdown_idempotent (psc : PersistentServiceClient) (w : World) :
    PersistentServiceClient.shutdown
        (PersistentServiceClient.shutdown psc w).1
        (PersistentServiceClient.shutdown psc w).2
      = PersistentServiceClient.shutdown psc w
    ∧ (PersistentServiceClient.shutdown psc w).1 = psc := by
  refine ⟨?_, rfl⟩
  simp [PersistentServiceClient.shutdown, Conn.shutdownSem,
    List.insert_of_mem, List.mem_insert_self]

/-- Equation lemma for the valid branch of `call` (shared helper). -/
theorem call_eq_of_valid {Srv : Type} (env : RosEnv Srv)
    (psc : PersistentServiceClient) (service : Srv) (fresh : Nat)
    (hvalid : env.isValid psc.client_ = true) :
    PersistentServiceClient.call env psc service fresh =
      ([Event.dispatch psc.client_],
       some ((env.callSrv psc.client_ service).1,
             (env.callSrv psc.client_ service).2, psc, fresh)) := by
  simp [PersistentServiceClient.call, hvalid]

/-- Equation lemma for the reconnect branch of `call` when the endpoint of
the rebuilt connection becomes available (shared helper). -/
theorem call_eq_of_avail {Srv : Type} (env : RosEnv Srv)
    (psc : PersistentServiceClient) (service : Srv) (fresh : Nat) (a : Int)
    (hinv : env.isValid psc.client_ = false)
    (havail : env.availAt (Conn.mk fresh (env.getService psc.client_) true) = some a) :
    PersistentServiceClient.call env psc service fresh =
      ([Event.readName psc.client_ (env.getService psc.client_),
        Event.warnLost (env.getService psc.client_),
        Event.newClient psc.nh_ (env.getService psc.client_) true
          (Conn.mk fresh (env.getService psc.client_) true),
        Event.waitForService (Conn.mk fresh (env.getService psc.client_) true) (-1),
        Event.warnRestored (env.getService psc.client_),
        Event.dispatch (Conn.mk fresh (env.getService psc.client_) true)],
       some ((env.callSrv (Conn.mk fresh (env.getService psc.client_) true) service).1,
             (env.callSrv (Conn.mk fresh (env.getService psc.client_) true) service).2,
             ⟨Conn.mk fresh (env.getService psc.client_) true, psc.nh_⟩, fresh + 1)) := by
  simp [PersistentServiceClient.call, hinv, NodeHandle.serviceClient,
    waitForExistenceSem, havail]

/-- Equation lemma for the reconnect branch of `call` when the endpoint of
the rebuilt connection never becomes available (shared helper). -/
theorem call_eq_of_never {Srv : Type} (env : RosEnv Srv)
    (psc : PersistentServiceClient) (service : Srv) (fresh : Nat)
    (hinv : env.isValid psc.client_ = false)
    (hnever : env.availAt (Conn.mk fresh (env.getService psc.client_) true) = none) :
    PersistentServiceClient.call env psc service fresh =
      ([Event.readName psc.client_ (env.getService psc.client_),
        Event.warnLost (env.getService psc.client_),
        Event.newClient psc.nh_ (env.getService psc.client_) true
          (Conn.mk fresh (env.getService psc.client_) true),
        Event.waitForService (Conn.mk fresh (env.getService psc.client_) true) (-1)],
       none) := by
  simp [PersistentServiceClient.call, hinv, NodeHandle.serviceClient,
    waitForExistenceSem, hnever]

/-- C2: under the middleware contract that a persistent connection whose
endpoint is available reports valid, no `call` invocation ever dispatches
the underlying exchange on a connection reporting invalid: every dispatch
event in the trace is on a valid connection (and a blocked invocation
produces no dispatch event at all). -/
theorem call_dispatch_valid {Srv : Type} (env : RosEnv Srv)
    (hcoh : ∀ c : Conn, c.persistent = true → (env.availAt c).isSome →
      env.isValid c = true)
    (psc : PersistentServiceClient) (service : Srv) (fresh : Nat) (c : Conn)
    (hmem : Event.dispatch c ∈ (PersistentServiceClient.call env psc service fresh).1) :
    env.isValid c = true := by
  by_cases hv : env.isValid psc.client_ = true
  · rw [call_eq_of_valid env psc service fresh hv] at hmem
    simp at hmem
    rw [hmem]
    exact hv
  · rw [Bool.not_eq_true] at hv
    rcases hav : env.availAt (Conn.mk fresh (env.getService psc.client_) true)
      with _ | a
    · rw [call_eq_of_never env psc service fresh hv hav] at hmem
      simp at hmem
    · rw [call_eq_of_avail env psc service fresh a hv hav] at hmem
      simp at hmem
      rw [hmem]
      exact hcoh _ rfl (by rw [hav]; rfl)

/-- C2 witness: in the coherent middleware `envCoherent`, the reconnect
path of `call envCoherent psc0` dispatches on connection id 1, which
reports valid. -/
theorem call_dispatch_valid_witness :
    envCoherent.isValid (Conn.mk 1 "E" true) = true :=
  call_dispatch_valid envCoherent
    (fun c _ h => by
      by_cases h0 : 0 < c.id
      · simp [envCoherent, h0]
      · simp [envCoherent, h0] at h)
    psc0 5 1 (Conn.mk 1 "E" true) (by decide)

/-- C5: whenever `call` returns a value, that value is exactly the success
flag of the single underlying exchange (and the populated object is the
one the exchange produced), and the trace contains exactly one dispatch —
no automatic retry of the exchange within the invocation. -/
theorem call_result_single_exchange {Srv : Type} (env : RosEnv Srv)
    (psc : PersistentServiceClient) (service : Srv) (fresh : Nat)
    (ok : Bool) (service' : Srv) (psc' : PersistentServiceClient) (fresh' : Nat)
    (h : (PersistentServiceClient.call env psc service fresh).2
      = some (ok, service', psc', fresh')) :
    (ok, service') = env.callSrv psc'.client_ service
    ∧ (PersistentServiceClient.call env psc service fresh).1.countP
        Event.isDispatch = 1 := by
  by_cases hv : env.isValid psc.client_ = true
  · rw [call_eq_of_valid env psc service fresh hv] at h ⊢
    simp at h
    obtain ⟨h1, h2, h3, h4⟩ := h
    subst h1; subst h2; subst h3
    exact ⟨rfl, by simp [List.countP_cons, Event.isDispatch]⟩
  · rw [Bool.not_eq_true] at hv
    rcases hav : env.availAt (Conn.mk fresh (env.getService psc.client_) true)
      with _ | a
    · rw [call_eq_of_never env psc service fresh hv hav] at h
      simp at h
    · rw [call_eq_of_avail env psc service fresh a hv hav] at h ⊢
      simp at h
      obtain ⟨h1, h2, h3, h4⟩ := h
      subst h1; subst h2; subst h3
      exact ⟨rfl, by simp [List.countP_cons, Event.isDispatch]⟩

/-- C5 witness: the reconnect-path invocation `call envReconnect psc0 5 1`
returns the exchange's flag and dispatches exactly once. -/
theorem call_result_single_exchange_witness :
    (true, 6) = envReconnect.callSrv
        (PersistentServiceClient.mk (Conn.mk 1 "E" true) (NodeHandle.mk 7)).client_ 5
    ∧ (PersistentServiceClient.call envReconnect psc0 5 1).1.countP
        Event.isDispatch = 1 :=
  call_result_single_exchange envReconnect psc0 5 1 true 6
    ⟨⟨1, "E", true⟩, ⟨7⟩⟩ 2 (by decide)

/-- A single `call` that returns preserves the name the held connection was
opened against, provided the middleware's name accessor is faithful
(shared helper for the endpoint-identity claim). -/
theorem call_preserves_opened_name {Srv : Type} (env : RosEnv Srv)
    (hg : ∀ c : Conn, env.getService c = c.opened_name)
    (psc : PersistentServiceClient) (service : Srv) (fresh : Nat)
    (ok : Bool) (service' : Srv) (psc' : PersistentServiceClient) (fresh' : Nat)
    (h : (PersistentServiceClient.call env psc service fresh).2
      = some (ok, service', psc', fresh')) :
    psc'.client_.opened_name = psc.client_.opened_name := by
  by_cases hv : env.isValid psc.client_ = true
  · rw [call_eq_of_valid env psc service fresh hv] at h
    simp at h
    rw [← h.2.2.1]
  · rw [Bool.not_eq_true] at hv
    rcases hav : env.availAt (Conn.mk fresh (env.getService psc.client_) true)
      with _ | a
    · rw [call_eq_of_never env psc service fresh hv hav] at h
      simp at h
    · rw [call_eq_of_avail env psc service fresh a hv hav] at h
      simp at h
      rw [← h.2.2.1]
      exact hg psc.client_

/-- Any sequence of returning `call` invocations preserves the name the
held connection was opened against, provided the middleware's name
accessor is faithful (shared helper). -/
theorem callList_preserves_opened_name {Srv : Type} (env : RosEnv Srv)
    (hg : ∀ c : Conn, env.getService c = c.opened_name)
    (reqs : List Srv) :
    ∀ (psc : PersistentServiceClient) (fresh : Nat)
      (psc' : PersistentServiceClient) (fresh' : Nat),
      callList env psc fresh reqs = some (psc', fresh') →
      psc'.client_.opened_name = psc.client_.opened_name := by
  induction reqs with
  | nil =>
    intro psc fresh psc' fresh' h
    simp [callList] at h
    rw [← h.1]
  | cons s rest ih =>
    intro psc fresh psc' fresh' h
    rw [callList] at h
    rcases hc : (PersistentServiceClient.call env psc s fresh).2
      with _ | ⟨ok, service', psc1, fresh1⟩
    · rw [hc] at h
      simp at h
    · rw [hc] at h
      simp at h
      have h1 := call_preserves_opened_name env hg psc s fresh ok service'
        psc1 fresh1 hc
      rw [ih psc1 fresh1 psc' fresh' h, h1]

/-- C3: across any sequence of `call` invocations — including arbitrarily
many automatic reconnects — the endpoint name reported by `getService` on
the final wrapper state equals the one reported before, provided the
middleware's name accessor faithfully reports the name each connection was
opened against: the endpoint name is fixed for the object's lifetime. -/
theorem getService_stable {Srv : Type} (env : RosEnv Srv)
    (hg : ∀ c : Conn, env.getService c = c.opened_name)
    (psc : PersistentServiceClient) (fresh : Nat) (reqs : List Srv)
    (psc' : PersistentServiceClient) (fresh' : Nat)
    (h : callList env psc fresh reqs = some (psc', fresh')) :
    PersistentServiceClient.getService env psc'
      = PersistentServiceClient.getService env psc := by
  rw [PersistentServiceClient.getService, PersistentServiceClient.getService,
    hg, hg]
  exact callList_preserves_opened_name env hg reqs psc fresh psc' fresh' h

/-- C3 witness: two calls under `envReconnect` (the first reconnects,
replacing connection id 0 by id 1) leave `getService` unchanged at "E". -/
theorem getService_stable_witness :
    PersistentServiceClient.getService envReconnect ⟨⟨1, "E", true⟩, ⟨7⟩⟩
      = PersistentServiceClient.getService envReconnect psc0 :=
  getService_stable envReconnect (fun _ => rfl) psc0 1 [3, 4]
    ⟨⟨1, "E", true⟩, ⟨7⟩⟩ 2 (by decide)

/-- C7: `waitForExistence` leaves the wrapper state (the held connection)
unchanged, blocks forever exactly when the timeout is negative and the
endpoint never becomes available, and returns `true` exactly when the
endpoint becomes available within the bound (any time at all for a
negative timeout, at or before the timeout otherwise). -/
theorem waitForExistence_spec {Srv : Type} (env : RosEnv Srv)
    (psc : PersistentServiceClient) (timeout : Duration) :
    (PersistentServiceClient.waitForExistence env psc timeout).2 = psc
    ∧ ((PersistentServiceClient.waitForExistence env psc timeout).1 = none
        ↔ timeout.t < 0 ∧ env.availAt psc.client_ = none)
    ∧ ((PersistentServiceClient.waitForExistence env psc timeout).1 = some true
        ↔ ∃ a, env.availAt psc.client_ = some a
            ∧ (timeout.t < 0 ∨ a ≤ timeout.t)) := by
  refine ⟨rfl, ?_, ?_⟩ <;>
  · rw [PersistentServiceClient.waitForExistence, waitForExistenceSem]
    rcases hav : env.availAt psc.client_ with _ | a <;>
      by_cases ht : timeout.t < 0 <;>
        simp [hav, ht]

/-- C10: the wrapper stores no endpoint name of its own — its state is
fully determined by the held connection and the node handle — and on the
reconnect path the replacement connection is opened against exactly the
string the held invalid connection's name accessor returns at that moment,
whatever it is (the trace shows the name read, the diagnostic carrying it,
and the new connection opened against it, in order). -/
theorem no_stored_endpoint_name {Srv : Type} (env : RosEnv Srv)
    (psc : PersistentServiceClient) (service : Srv) (fresh : Nat)
    (hinv : env.isValid psc.client_ = false) :
    (∀ p q : PersistentServiceClient, p.client_ = q.client_ → p.nh_ = q.nh_ →
      p = q)
    ∧ ∃ tail, (PersistentServiceClient.call env psc service fresh).1 =
        Event.readName psc.client_ (env.getService psc.client_)
        :: Event.warnLost (env.getService psc.client_)
        :: Event.newClient psc.nh_ (env.getService psc.client_) true
            (Conn.mk fresh (env.getService psc.client_) true)
        :: Event.waitForService
            (Conn.mk fresh (env.getService psc.client_) true) (-1)
        :: tail := by
  constructor
  · intro p q h1 h2
    obtain ⟨pc, pn⟩ := p
    obtain ⟨qc, qn⟩ := q
    simp at h1 h2
    rw [h1, h2]
  · rcases hav : env.availAt (Conn.mk fresh (env.getService psc.client_) true)
      with _ | a
    · exact ⟨[], by rw [call_eq_of_never env psc service fresh hinv hav]⟩
    · exact ⟨[Event.warnRestored (env.getService psc.client_),
        Event.dispatch (Conn.mk fresh (env.getService psc.client_) true)],
        by rw [call_eq_of_avail env psc service fresh a hinv hav]⟩

/-- C10 witness: under `envNever` the name accessor returns "" for the
invalid connection `psc0.client_` (opened against "E"), and the
replacement connection is opened against "" — exactly what the accessor
returned. -/
theorem no_stored_endpoint_name_witness :
    (∀ p q : PersistentServiceClient, p.client_ = q.client_ → p.nh_ = q.nh_ →
      p = q)
    ∧ ∃ tail, (PersistentServiceClient.call envNever psc0 5 1).1 =
        Event.readName psc0.client_ (envNever.getService psc0.client_)
        :: Event.warnLost (envNever.getService psc0.client_)
        :: Event.newClient psc0.nh_ (envNever.getService psc0.client_) true
            (Conn.mk 1 (envNever.getService psc0.client_) true)
        :: Event.waitForService
            (Conn.mk 1 (envNever.getService psc0.client_) true) (-1)
        :: tail :=
  no_stored_endpoint_name envNever psc0 5 1 rfl
